import Mathlib

/-
Verification of `SimpleFlightDroneController`
(src/AirLib/include/firmwares/simple_flight/SimpleFlightDroneController.hpp).

Shallow embedding: floating-point scalars that are only moved around (never
subjected to rounding arithmetic; the sole arithmetic is sign negation, which
is exact in IEEE 754) are modelled as rationals.  Pose components, which the
source tests with `VectorMath::hasNan`, are modelled as `Option ℚ` with `none`
playing the role of the NaN sentinel.  External collaborators (firmware,
board, physics body) are modelled as recorded fields of a single explicit
controller state; each such definition carries a doc comment saying what it
models.  C++ `static` local variables with per-call initializers are modelled
faithfully: an `Option`-valued cache that is filled on the first call and
reused thereafter.
-/

set_option autoImplicit false

namespace SimpleFlightCtrl

/-- Modelled from the spec: per-axis control-mode enumeration
`{AngleLevel, AngleRate, VelocityWorld, PositionWorld}` (spec section 3;
firmware type `simple_flight::GoalModeType`, not under src/). -/
inductive GoalModeType where
  | AngleLevel
  | AngleRate
  | VelocityWorld
  | PositionWorld
deriving DecidableEq, Repr

/-- Modelled from the spec: four-slot mode selector, one `GoalModeType` per
axis (firmware type `simple_flight::GoalMode`, not under src/).  The slot
names follow the spec data model `{axis1, axis2, axis3, axis4}`:
axis1 = roll/x, axis2 = pitch/y, axis3 = yaw, axis4 = altitude/z. -/
structure GoalMode where
  axis1 : GoalModeType
  axis2 : GoalModeType
  axis3 : GoalModeType
  axis4 : GoalModeType
deriving DecidableEq, Repr

/-- Modelled from the spec: four-value axis goal
(firmware type `simple_flight::Axis4r`, not under src/), constructor
argument order as in the source calls `Axis4r(a1, a2, a3, a4)`. -/
structure Axis4r where
  axis1 : ℚ
  axis2 : ℚ
  axis3 : ℚ
  axis4 : ℚ
deriving DecidableEq, Repr

/-- Modelled from the spec: yaw descriptor
`{is_rate : bool, yaw_or_rate : float}` (type `YawMode` of
DroneControllerBase.hpp, not under src/). -/
structure YawMode where
  is_rate : Bool
  yaw_or_rate : ℚ
deriving DecidableEq, Repr

/-- Modelled from the spec: generic remote-control sample
`{is_connected, roll, pitch, yaw, throttle, switch1..switch8}` (type
`RCData` of the controller base headers, not under src/); switches are
discrete values, cast to the channel scalar on write. -/
structure RCData where
  is_connected : Bool
  roll : ℚ
  pitch : ℚ
  yaw : ℚ
  throttle : ℚ
  switch1 : ℕ
  switch2 : ℕ
  switch3 : ℕ
  switch4 : ℕ
  switch5 : ℕ
  switch6 : ℕ
  switch7 : ℕ
  switch8 : ℕ
deriving DecidableEq, Repr

/-- Modelled from the spec: the default-constructed `RCData` value
(all numeric fields zero, not connected). -/
def RCData.default : RCData :=
  ⟨false, 0, 0, 0, 0, 0, 0, 0, 0, 0, 0, 0, 0⟩

/-- Scalar that may be the NaN sentinel: `none` models NaN. -/
abbrev FVal := Option ℚ

/-- Modelled from the spec: a 3-vector of scalars each independently
NaN-able (type `Vector3r`, not under src/). -/
structure Vector3r where
  x : FVal
  y : FVal
  z : FVal
deriving DecidableEq, Repr

/-- Modelled from the spec: a quaternion of scalars each independently
NaN-able (type `Quaternionr`, not under src/). -/
structure Quaternionr where
  w : FVal
  x : FVal
  y : FVal
  z : FVal
deriving DecidableEq, Repr

/-- Modelled from the spec: `VectorMath::hasNan` on a 3-vector — true iff
some component is the NaN sentinel. -/
def Vector3r.hasNan (v : Vector3r) : Bool :=
  v.x.isNone || v.y.isNone || v.z.isNone

/-- Modelled from the spec: `VectorMath::hasNan` on a quaternion — true iff
some coefficient is the NaN sentinel. -/
def Quaternionr.hasNan (q : Quaternionr) : Bool :=
  q.w.isNone || q.x.isNone || q.y.isNone || q.z.isNone

/-- Modelled from the spec: a pose `{position, orientation}`. -/
structure Pose where
  position : Vector3r
  orientation : Quaternionr
deriving DecidableEq, Repr

/-- Modelled from the spec: the non-pose part of the physics body's
kinematics (`{pose, velocities}`, spec section 6); linear and angular
velocity vectors, untouched by this core. -/
structure Twist where
  linear : Vector3r
  angular : Vector3r
deriving DecidableEq, Repr

/-- Modelled from the spec: the kinematics record read from and written to
the physics body: a pose plus velocities. -/
structure Kinematics where
  pose : Pose
  velocities : Twist
deriving DecidableEq, Repr

/-- Modelled from the spec: landed-state enumeration returned by
`getLandedState` (type `LandedState` of DroneControllerBase.hpp,
not under src/). -/
inductive LandedState where
  | Landed
  | Flying
deriving DecidableEq, Repr

/-- Modelled from the spec: error condition raised by unsupported
operations (`VehicleCommandNotImplementedException`). -/
inductive ControllerError where
  | VehicleCommandNotImplemented (msg : String)
deriving DecidableEq, Repr

/-- The explicit state of one `SimpleFlightDroneController` together with
the observable state of its collaborators.

Fields from the source: `is_pose_update_done`, `pending_pose` (the render
synchronizer), and the per-entry-point caches modelling the C++ `static`
local `GoalMode` variables of the four command methods (a `static` local's
initializer runs only on the first call through the declaration).

Modelled from the spec, for the collaborators not under src/:
`firmwareGoal` records the last `(goal, mode)` pair submitted through the
firmware's `setGoalAndMode`; `hasApiControl` is the firmware offboard API
control flag; `isRcConnected` and `channels` are the external board's
RC-connected flag and indexed input-channel array; `kinematics` is the
physics body's kinematics record; `requesterBlocked` and `wakeups` record
whether the pose requester is parked on the condition variable and how many
times `notify_all` has woken it. -/
structure ControllerState where
  firmwareGoal : Option (Axis4r × GoalMode)
  cachedVelocityMode : Option GoalMode
  cachedVelocityZMode : Option GoalMode
  cachedPositionMode : Option GoalMode
  hasApiControl : Bool
  isRcConnected : Bool
  channels : ℕ → ℚ
  is_pose_update_done : Bool
  pending_pose : Pose
  kinematics : Kinematics
  requesterBlocked : Bool
  wakeups : ℕ

/-- A concrete all-zero initial state, used for closed evaluations. -/
def ControllerState.init : ControllerState where
  firmwareGoal := none
  cachedVelocityMode := none
  cachedVelocityZMode := none
  cachedPositionMode := none
  hasApiControl := false
  isRcConnected := false
  channels := fun _ => 0
  is_pose_update_done := false
  pending_pose := ⟨⟨some 0, some 0, some 0⟩, ⟨some 1, some 0, some 0, some 0⟩⟩
  kinematics :=
    ⟨⟨⟨some 0, some 0, some 0⟩, ⟨some 1, some 0, some 0, some 0⟩⟩,
     ⟨⟨some 0, some 0, some 0⟩, ⟨some 0, some 0, some 0⟩⟩⟩
  requesterBlocked := false
  wakeups := 0

/-- Modelled from the spec: the firmware offboard command sink
`setGoalAndMode(goal, mode, message)` — records the submitted pair; the
message is a diagnostic side channel discarded by the caller. -/
def setGoalAndMode (goal : Axis4r) (mode : GoalMode) (s : ControllerState) :
    ControllerState :=
  { s with firmwareGoal := some (goal, mode) }

/-- Source `commandRollPitchZ(pitch, roll, z, yaw)`: its `static GoalMode`
has a constant initializer `(AngleLevel, AngleLevel, AngleLevel,
PositionWorld)`, so the cached value is that constant on every call; the
goal is `Axis4r(roll, pitch, yaw, z)`. -/
def commandRollPitchZ (pitch roll z yaw : ℚ) (s : ControllerState) :
    ControllerState :=
  let mode : GoalMode :=
    ⟨.AngleLevel, .AngleLevel, .AngleLevel, .PositionWorld⟩
  setGoalAndMode ⟨roll, pitch, yaw, z⟩ mode s

/-- The value the `static GoalMode` initializer of `commandVelocity`
computes from the call's `yaw_mode`. -/
def velocityModeInit (yaw_mode : YawMode) : GoalMode :=
  ⟨.VelocityWorld, .VelocityWorld,
   if yaw_mode.is_rate then .AngleRate else .AngleLevel,
   .VelocityWorld⟩

/-- Source `commandVelocity(vx, vy, vz, yaw_mode)`: the `static GoalMode`
initializer depends on `yaw_mode.is_rate` but runs only on the first call,
so the mode submitted is the cached one when present; the goal is
`Axis4r(vx, vy, yaw_mode.yaw_or_rate, vz)`. -/
def commandVelocity (vx vy vz : ℚ) (yaw_mode : YawMode)
    (s : ControllerState) : ControllerState :=
  let mode := s.cachedVelocityMode.getD (velocityModeInit yaw_mode)
  setGoalAndMode ⟨vx, vy, yaw_mode.yaw_or_rate, vz⟩ mode
    { s with cachedVelocityMode := some mode }

/-- The value the `static GoalMode` initializer of `commandVelocityZ`
computes from the call's `yaw_mode`. -/
def velocityZModeInit (yaw_mode : YawMode) : GoalMode :=
  ⟨.VelocityWorld, .VelocityWorld,
   if yaw_mode.is_rate then .AngleRate else .AngleLevel,
   .PositionWorld⟩

/-- Source `commandVelocityZ(vx, vy, z, yaw_mode)`: static mode cached on
first call, goal `Axis4r(vx, vy, yaw_mode.yaw_or_rate, z)`. -/
def commandVelocityZ (vx vy z : ℚ) (yaw_mode : YawMode)
    (s : ControllerState) : ControllerState :=
  let mode := s.cachedVelocityZMode.getD (velocityZModeInit yaw_mode)
  setGoalAndMode ⟨vx, vy, yaw_mode.yaw_or_rate, z⟩ mode
    { s with cachedVelocityZMode := some mode }

/-- The value the `static GoalMode` initializer of `commandPosition`
computes from the call's `yaw_mode`. -/
def positionModeInit (yaw_mode : YawMode) : GoalMode :=
  ⟨.PositionWorld, .PositionWorld,
   if yaw_mode.is_rate then .AngleRate else .AngleLevel,
   .PositionWorld⟩

/-- Source `commandPosition(x, y, z, yaw_mode)`: static mode cached on
first call, goal `Axis4r(x, y, yaw_mode.yaw_or_rate, z)`. -/
def commandPosition (x y z : ℚ) (yaw_mode : YawMode)
    (s : ControllerState) : ControllerState :=
  let mode := s.cachedPositionMode.getD (positionModeInit yaw_mode)
  setGoalAndMode ⟨x, y, yaw_mode.yaw_or_rate, z⟩ mode
    { s with cachedPositionMode := some mode }

/-- Modelled from the spec: the external board's
`setInputChannel(index, value)` — writes one slot of the indexed
input-channel array. -/
def setInputChannel (idx : ℕ) (v : ℚ) (s : ControllerState) :
    ControllerState :=
  { s with channels := Function.update s.channels idx v }

/-- Modelled from the spec: the external board's `setIsRcConnected`. -/
def setIsRcConnected (b : Bool) (s : ControllerState) : ControllerState :=
  { s with isRcConnected := b }

/-- Source `setRCData(rcData)`: if connected, mark connected and write the
twelve channels in the source's order (channel 3 gets the negated pitch,
switches are cast to the channel scalar); otherwise only mark
disconnected. -/
def setRCData (rcData : RCData) (s : ControllerState) : ControllerState :=
  if rcData.is_connected then
    setInputChannel 11 (rcData.switch8 : ℚ) <|
    setInputChannel 10 (rcData.switch7 : ℚ) <|
    setInputChannel 9 (rcData.switch6 : ℚ) <|
    setInputChannel 8 (rcData.switch5 : ℚ) <|
    setInputChannel 7 (rcData.switch4 : ℚ) <|
    setInputChannel 6 (rcData.switch3 : ℚ) <|
    setInputChannel 5 (rcData.switch2 : ℚ) <|
    setInputChannel 4 (rcData.switch1 : ℚ) <|
    setInputChannel 3 (-rcData.pitch) <|
    setInputChannel 2 rcData.throttle <|
    setInputChannel 1 rcData.yaw <|
    setInputChannel 0 rcData.roll <|
    setIsRcConnected true s
  else
    setIsRcConnected false s

/-- Source `getRCData()`: returns a default-constructed `RCData`,
ignoring all controller state. -/
def getRCData (_ : ControllerState) : RCData :=
  RCData.default

/-- Source `getLandedState()`: always returns `Landed`. -/
def getLandedState (_ : ControllerState) : LandedState :=
  LandedState.Landed

/-- Source `isSimulationMode()`: always returns true. -/
def isSimulationMode (_ : ControllerState) : Bool :=
  true

/-- Source `setSimulationMode(is_set)`: throws
`VehicleCommandNotImplementedException` when `is_set` is false, otherwise
returns with the state untouched. -/
def setSimulationMode (is_set : Bool) (s : ControllerState) :
    Except ControllerError ControllerState :=
  if !is_set then
    .error (.VehicleCommandNotImplemented
      "setting non-simulation mode is not supported yet")
  else
    .ok s

/-- Source `isOffboardMode()`: reads the firmware's `hasApiControl`. -/
def isOffboardMode (s : ControllerState) : Bool :=
  s.hasApiControl

/-- Source `setOffboardMode(is_set)`.  Modelled from the spec for the
firmware side (`requestApiControl(message) -> bool`,
`releaseApiControl()`, not under src/): `accepts` is whether the firmware
grants the request; a refused request leaves control unchanged and is
reported only through the message side channel, a release clears control
unconditionally.  The call itself always returns normally. -/
def setOffboardMode (is_set : Bool) (accepts : Bool) (s : ControllerState) :
    ControllerState :=
  if is_set then
    if accepts then { s with hasApiControl := true } else s
  else
    { s with hasApiControl := false }

/-- Source `simSetPose(position, orientation)`: stores the pending pose,
then `waitForRender` sets `is_pose_update_done` to false and parks the
calling thread on the condition variable until the flag turns true. -/
def simSetPose (position : Vector3r) (orientation : Quaternionr)
    (s : ControllerState) : ControllerState :=
  { s with
    pending_pose := ⟨position, orientation⟩
    is_pose_update_done := false
    requesterBlocked := true }

/-- Source `simNotifyRender()`: when the pose update is not yet done, read
the physics body's kinematics, overwrite position and orientation only
where the pending pose has no NaN component, write the merged kinematics
back, mark the update done and wake the blocked requester; otherwise do
nothing. -/
def simNotifyRender (s : ControllerState) : ControllerState :=
  if s.is_pose_update_done then s
  else
    let k := s.kinematics
    let p := if s.pending_pose.position.hasNan then k.pose.position
             else s.pending_pose.position
    let q := if s.pending_pose.orientation.hasNan then k.pose.orientation
             else s.pending_pose.orientation
    { s with
      kinematics := { k with pose := ⟨p, q⟩ }
      is_pose_update_done := true
      requesterBlocked := false
      wakeups := s.wakeups + 1 }

/-! Theorems -/

/-- Claim C4: `setSimulationMode false` always fails with the
NotImplemented condition and returns no (hence no partially updated)
state, while `setSimulationMode true` returns normally with the state
untouched. -/
theorem claim4_setSimulationMode (s : ControllerState) :
    setSimulationMode false s =
      .error (.VehicleCommandNotImplemented
        "setting non-simulation mode is not supported yet") ∧
    setSimulationMode true s = .ok s := by
  constructor <;> rfl

/-- Claim C7: `commandRollPitchZ pitch roll z yaw` submits the goal
`(roll, pitch, yaw, z)` — the first two parameters swapped into axis
order — paired with the fixed mode `(AngleLevel, AngleLevel, AngleLevel,
PositionWorld)`, on every call from every state. -/
theorem claim7_commandRollPitchZ (pitch roll z yaw : ℚ)
    (s : ControllerState) :
    (commandRollPitchZ pitch roll z yaw s).firmwareGoal =
      some (⟨roll, pitch, yaw, z⟩,
            ⟨.AngleLevel, .AngleLevel, .AngleLevel, .PositionWorld⟩) := by
  rfl

/-- Claim C8: `getRCData` returns a default-constructed `RCData` in every
state, in particular after any `setRCData` call; written RC channel
values are never reflected back. -/
theorem claim8_getRCData (s : ControllerState) :
    getRCData s = RCData.default ∧
    ∀ rc : RCData, getRCData (setRCData rc s) = RCData.default := by
  exact ⟨rfl, fun _ => rfl⟩

/-- Claim C9: `getLandedState` returns `Landed` in every controller
state, regardless of position, velocity or past commands. -/
theorem claim9_getLandedState (s : ControllerState) :
    getLandedState s = LandedState.Landed := by
  rfl

/-- Claim C10: `isSimulationMode` returns true in every controller state;
simulation mode is a constant true invariant of the facade. -/
theorem claim10_isSimulationMode (s : ControllerState) :
    isSimulationMode s = true := by
  rfl

/-- Claim C6: `setOffboardMode true` with no firmware rejection makes
`isOffboardMode` true; a firmware refusal is not escalated (the call
returns with the state unchanged); `setOffboardMode false` releases
control unconditionally, after which `isOffboardMode` is false. -/
theorem claim6_setOffboardMode (s : ControllerState) (accepts : Bool) :
    isOffboardMode (setOffboardMode true true s) = true ∧
    setOffboardMode true false s = s ∧
    isOffboardMode (setOffboardMode false accepts s) = false := by
  refine ⟨rfl, rfl, ?_⟩
  rfl

/-- Claim C5: `simNotifyRender` is idempotent — a second call without an
intervening `simSetPose` leaves the physics body and all synchronizer
state exactly as the first call left them, because the first call always
leaves `is_pose_update_done` set. -/
theorem claim5_simNotifyRender_idempotent (s : ControllerState) :
    simNotifyRender (simNotifyRender s) = simNotifyRender s ∧
    (simNotifyRender s).is_pose_update_done = true := by
  unfold simNotifyRender
  by_cases h : s.is_pose_update_done <;> simp [h]

/-- Claim C2: one `simSetPose` followed by one `simNotifyRender` writes
back kinematics equal to the current kinematics with position and
orientation each replaced by the requested value exactly when that value
has no NaN component; velocities are unchanged, and the blocked requester
is unblocked exactly once (blocked flag cleared, one wakeup). -/
theorem claim2_setPose_then_notify (s : ControllerState)
    (pos : Vector3r) (ori : Quaternionr) :
    (simNotifyRender (simSetPose pos ori s)).kinematics.pose.position =
      (if pos.hasNan then s.kinematics.pose.position else pos) ∧
    (simNotifyRender (simSetPose pos ori s)).kinematics.pose.orientation =
      (if ori.hasNan then s.kinematics.pose.orientation else ori) ∧
    (simNotifyRender (simSetPose pos ori s)).kinematics.velocities =
      s.kinematics.velocities ∧
    (simSetPose pos ori s).requesterBlocked = true ∧
    (simNotifyRender (simSetPose pos ori s)).requesterBlocked = false ∧
    (simNotifyRender (simSetPose pos ori s)).wakeups = s.wakeups + 1 := by
  simp [simNotifyRender, simSetPose]

/-- Claim C3: `setRCData` marks the board connected exactly as the
sample says; when connected it writes channel 0 = roll, 1 = yaw,
2 = throttle, 3 = negated pitch, 4..11 = switches 1..8 cast to the
channel scalar, with no scaling or clamping; when disconnected it writes
no channel; channels from 12 up are never written. -/
theorem claim3_setRCData (rc : RCData) (s : ControllerState) :
    (setRCData rc s).isRcConnected = rc.is_connected ∧
    (setRCData rc s).channels 0 =
      (if rc.is_connected then rc.roll else s.channels 0) ∧
    (setRCData rc s).channels 1 =
      (if rc.is_connected then rc.yaw else s.channels 1) ∧
    (setRCData rc s).channels 2 =
      (if rc.is_connected then rc.throttle else s.channels 2) ∧
    (setRCData rc s).channels 3 =
      (if rc.is_connected then -rc.pitch else s.channels 3) ∧
    (setRCData rc s).channels 4 =
      (if rc.is_connected then (rc.switch1 : ℚ) else s.channels 4) ∧
    (setRCData rc s).channels 5 =
      (if rc.is_connected then (rc.switch2 : ℚ) else s.channels 5) ∧
    (setRCData rc s).channels 6 =
      (if rc.is_connected then (rc.switch3 : ℚ) else s.channels 6) ∧
    (setRCData rc s).channels 7 =
      (if rc.is_connected then (rc.switch4 : ℚ) else s.channels 7) ∧
    (setRCData rc s).channels 8 =
      (if rc.is_connected then (rc.switch5 : ℚ) else s.channels 8) ∧
    (setRCData rc s).channels 9 =
      (if rc.is_connected then (rc.switch6 : ℚ) else s.channels 9) ∧
    (setRCData rc s).channels 10 =
      (if rc.is_connected then (rc.switch7 : ℚ) else s.channels 10) ∧
    (setRCData rc s).channels 11 =
      (if rc.is_connected then (rc.switch8 : ℚ) else s.channels 11) ∧
    (∀ i : ℕ, 12 ≤ i → (setRCData rc s).channels i = s.channels i) := by
  unfold setRCData setInputChannel setIsRcConnected
  by_cases h : rc.is_connected <;> simp [h, Function.update]
  intro i hi
  have e0 : i ≠ 0 := by omega
  have e1 : i ≠ 1 := by omega
  have e2 : i ≠ 2 := by omega
  have e3 : i ≠ 3 := by omega
  have e4 : i ≠ 4 := by omega
  have e5 : i ≠ 5 := by omega
  have e6 : i ≠ 6 := by omega
  have e7 : i ≠ 7 := by omega
  have e8 : i ≠ 8 := by omega
  have e9 : i ≠ 9 := by omega
  have e10 : i ≠ 10 := by omega
  have e11 : i ≠ 11 := by omega
  simp [e0, e1, e2, e3, e4, e5, e6, e7, e8, e9, e10, e11]

/-- Witness for claim C3: a concrete connected sample with pitch 2/5
yields channel 3 equal to -(2/5), and channel 12 is untouched. -/
theorem claim3_setRCData_witness :
    (setRCData ⟨true, 1, 2/5, 3, 4, 5, 6, 7, 8, 9, 10, 11, 12⟩
        ControllerState.init).channels 3 = -(2/5 : ℚ) ∧
    12 ≤ 12 ∧
    (setRCData ⟨true, 1, 2/5, 3, 4, 5, 6, 7, 8, 9, 10, 11, 12⟩
        ControllerState.init).channels 12 =
      ControllerState.init.channels 12 := by
  have h := claim3_setRCData
    ⟨true, 1, 2/5, 3, 4, 5, 6, 7, 8, 9, 10, 11, 12⟩ ControllerState.init
  refine ⟨?_, by norm_num, ?_⟩
  · have h3 := h.2.2.2.2.1
    simpa using h3
  · exact h.2.2.2.2.2.2.2.2.2.2.2.2.2 12 (by norm_num)

/-- Claim C1 failing evaluation: `commandVelocity` is called first with a
yaw descriptor in angle mode, then with a yaw descriptor in rate mode;
because the `static GoalMode` initializer ran only on the first call, the
second submission still carries yaw mode `AngleLevel` even though the
caller's `is_rate` is true, contradicting the claimed iff. -/
theorem claim1_commandVelocity_stale_mode :
    (commandVelocity 4 5 6 ⟨true, 1⟩
        (commandVelocity 1 2 3 ⟨false, 0⟩ ControllerState.init)).firmwareGoal =
      some (⟨4, 5, 1, 6⟩,
            ⟨.VelocityWorld, .VelocityWorld, .AngleLevel, .VelocityWorld⟩) ∧
    (⟨true, 1⟩ : YawMode).is_rate = true := by
  exact ⟨rfl, rfl⟩

end SimpleFlightCtrl
